import Mathlib

/-!
Shallow embedding of the kubefederation cluster-health controller
(api/v1/common/common.go, api/v1/federatedcluster_types.go,
controllers/clusterclient.go).

Modelling conventions:
* timestamps (metav1.Time) are `Nat`;
* Go `error` values are `Option String` (none = nil) or `Except String`;
* external effects (secret lookup, clientcmd config building, the
  /healthz HTTP round trip, the store's status update) are data passed
  in explicitly, so every function is pure and executable;
* Go pointers to strings/times become `Option`;
* `reflect.DeepEqual` is modelled on tagged dynamic values: in Go,
  values of distinct dynamic types are never deeply equal, so a
  pointer-to-struct and a struct value always compare unequal.
-/

namespace KubeFed

/- ClusterConditionType constants from api/v1/common/common.go. -/
namespace common

def ClusterReady : String := "Ready"

def ClusterOffline : String := "Offline"

def ClusterConfigMalformed : String := "ConfigMalformed"

end common

/-- apiv1.ConditionTrue. -/
def ConditionTrue : String := "True"

/-- apiv1.ConditionFalse. -/
def ConditionFalse : String := "False"

/-- A single quote character, used in the malformed-config message. -/
def squote : String := String.singleton (Char.ofNat 39)

def UserAgentName : String := "Cluster-Controller"

def KubeAPIQPS : Nat := 20

def KubeAPIBurst : Nat := 30

def TokenKey : String := "token"

def CaCrtKey : String := "ca.crt"

def ClusterReadyReason : String := "ClusterReady"

def HealthzOk : String := "/healthz responded with ok"

def ClusterNotReadyReason : String := "ClusterNotReady"

def HealthzNotOk : String := "/healthz responded without ok"

def ClusterNotReachableReason : String := "ClusterNotReachable"

def ClusterNotReachableMsg : String := "cluster is not reachable"

def ClusterReachableReason : String := "ClusterReachable"

def ClusterReachableMsg : String := "cluster is reachable"

def ClusterConfigMalformedReason : String := "ClusterConfigMalformed"

def ClusterConfigMalformedMsg : String :=
  "cluster" ++ squote ++ "s configuration may be malformed"

abbrev Time := Nat

/-- ClusterCondition from api/v1/federatedcluster_types.go.  Reason,
Message and LastTransitionTime are pointers in Go, hence `Option`. -/
structure ClusterCondition where
  type : String
  status : String
  lastProbeTime : Time
  lastTransitionTime : Option Time
  reason : Option String
  message : Option String
deriving DecidableEq, Repr

/-- FederatedClusterStatus: the condition list. -/
structure FederatedClusterStatus where
  conditions : List ClusterCondition
deriving DecidableEq, Repr

structure LocalSecretReference where
  name : String
deriving DecidableEq, Repr

/-- FederatedClusterSpec: endpoint, optional CA bundle, secret reference. -/
structure FederatedClusterSpec where
  apiEndpoint : String
  caBundle : List Nat
  secretRef : LocalSecretReference
deriving DecidableEq, Repr

/-- FederatedCluster: object metadata (name, namespace) plus spec and
status. -/
structure FederatedCluster where
  name : String
  nspace : String
  spec : FederatedClusterSpec
  status : FederatedClusterStatus
deriving DecidableEq, Repr

/-- A core/v1 Secret: its Data map, with byte values read as strings. -/
structure Secret where
  data : List (String × String)
deriving DecidableEq, Repr

/-- restclient.Config, restricted to the fields the controller sets. -/
structure RestConfig where
  host : String
  caData : List Nat
  bearerToken : String
  qps : Nat
  burst : Nat
  timeout : Nat
deriving DecidableEq, Repr

/-- The external capabilities buildClusterConfig and NewClusterClientSet
use: the controller-runtime client's Get for secrets, clientcmd's
BuildConfigFromFlags, and kubeclientset.NewForConfig. -/
structure ClusterEnv where
  secretGet : String → String → Except String Secret
  buildFromFlags : String → Except String RestConfig
  newForConfig : RestConfig → Except String Unit

/-- buildClusterConfig (controllers/clusterclient.go lines 59-97):
validate apiEndpoint and secretRef.name non-empty, fetch the secret,
require a non-empty token value, build the base config from the
endpoint, then stamp CAData, BearerToken, QPS and Burst. -/
def buildClusterConfig (env : ClusterEnv) (fedCluster : FederatedCluster) :
    Except String RestConfig :=
  let clusterName := fedCluster.name
  let apiEndpoint := fedCluster.spec.apiEndpoint
  if apiEndpoint = "" then
    Except.error ("The api endpoint of cluster " ++ clusterName ++ " is empty")
  else if fedCluster.spec.secretRef.name = "" then
    Except.error ("Cluster " ++ clusterName ++ " does not have a secret name")
  else
    match env.secretGet fedCluster.nspace fedCluster.spec.secretRef.name with
    | Except.error e => Except.error e
    | Except.ok secret =>
      match secret.data.lookup TokenKey with
      | none =>
        Except.error ("The secret for cluster " ++ clusterName ++
          " is missing a non-empty value for " ++ TokenKey)
      | some token =>
        if token.length = 0 then
          Except.error ("The secret for cluster " ++ clusterName ++
            " is missing a non-empty value for " ++ TokenKey)
        else
          match env.buildFromFlags apiEndpoint with
          | Except.error e => Except.error e
          | Except.ok clusterConfig =>
            Except.ok { clusterConfig with
              caData := fedCluster.spec.caBundle
              bearerToken := token
              qps := KubeAPIQPS
              burst := KubeAPIBurst }

/-- ClusterClient: the cluster name and the (possibly nil) kubeClient.
The client itself carries no observable data beyond being non-nil; the
outcome of its /healthz request is supplied to GetClusterHealthStatus
explicitly. -/
structure ClusterClient where
  kubeClient : Option Unit
  clusterName : String
deriving DecidableEq, Repr

/-- NewClusterClientSet (lines 48-57): build the config; on failure the
returned client has a nil kubeClient and the error is passed through.
On success, set the timeout and call NewForConfig, whose error (with a
nil clientset) is likewise passed through. -/
def NewClusterClientSet (env : ClusterEnv) (c : FederatedCluster)
    (timeout : Nat) : ClusterClient × Option String :=
  let clusterClientSet : ClusterClient := { kubeClient := none, clusterName := c.name }
  match buildClusterConfig env c with
  | Except.error e => (clusterClientSet, some e)
  | Except.ok clusterConfig =>
    match env.newForConfig { clusterConfig with timeout := timeout } with
    | Except.error e => (clusterClientSet, some e)
    | Except.ok _ => ({ clusterClientSet with kubeClient := some () }, none)

/-- strings.EqualFold restricted to ASCII case folding, which is exact
for the literal comparand "ok"; folding is applied per character over
the underlying character lists. -/
def equalFold (s t : String) : Bool :=
  s.data.map Char.toLower == t.data.map Char.toLower

/-- The Ready=True condition built at lines 103-112. -/
def newClusterReadyCondition (currentTime : Time) : ClusterCondition :=
  { type := common.ClusterReady
    status := ConditionTrue
    reason := some ClusterReadyReason
    message := some HealthzOk
    lastProbeTime := currentTime
    lastTransitionTime := some currentTime }

/-- The Ready=False condition built at lines 113-122. -/
def newClusterNotReadyCondition (currentTime : Time) : ClusterCondition :=
  { type := common.ClusterReady
    status := ConditionFalse
    reason := some ClusterNotReadyReason
    message := some HealthzNotOk
    lastProbeTime := currentTime
    lastTransitionTime := some currentTime }

/-- The Offline=True condition built at lines 123-132. -/
def newClusterOfflineCondition (currentTime : Time) : ClusterCondition :=
  { type := common.ClusterOffline
    status := ConditionTrue
    reason := some ClusterNotReachableReason
    message := some ClusterNotReachableMsg
    lastProbeTime := currentTime
    lastTransitionTime := some currentTime }

/-- The Offline=False condition built at lines 133-142. -/
def newClusterNotOfflineCondition (currentTime : Time) : ClusterCondition :=
  { type := common.ClusterOffline
    status := ConditionFalse
    reason := some ClusterReachableReason
    message := some ClusterReachableMsg
    lastProbeTime := currentTime
    lastTransitionTime := some currentTime }

/-- The ConfigMalformed=True condition built at lines 143-152. -/
def newClusterConfigMalformedCondition (currentTime : Time) : ClusterCondition :=
  { type := common.ClusterConfigMalformed
    status := ConditionTrue
    reason := some ClusterConfigMalformedReason
    message := some ClusterConfigMalformedMsg
    lastProbeTime := currentTime
    lastTransitionTime := some currentTime }

/-- GetClusterHealthStatus (lines 100-170).  `currentTime` is the single
metav1.Now() captured at entry; `healthz` is the outcome of the GET on
/healthz (error, or the raw body).  When kubeClient is nil the function
returns the ConfigMalformed status with a nil error; otherwise it
classifies the healthz outcome and returns the transport error (nil on
transport success) alongside the status. -/
def GetClusterHealthStatus (c : ClusterClient) (currentTime : Time)
    (healthz : Except String String) : FederatedClusterStatus × Option String :=
  match c.kubeClient with
  | none =>
    ({ conditions := [newClusterConfigMalformedCondition currentTime] }, none)
  | some _ =>
    match healthz with
    | Except.error err =>
      ({ conditions := [newClusterOfflineCondition currentTime] }, some err)
    | Except.ok body =>
      if ¬ equalFold body "ok" then
        ({ conditions := [newClusterNotReadyCondition currentTime,
                          newClusterNotOfflineCondition currentTime] }, none)
      else
        ({ conditions := [newClusterReadyCondition currentTime] }, none)

/-- A dynamic Go value as passed to reflect.DeepEqual: either a
FederatedClusterStatus struct value or a pointer to one. -/
inductive GoValue where
  | statusVal (s : FederatedClusterStatus)
  | statusPtr (s : FederatedClusterStatus)
deriving DecidableEq, Repr

/-- reflect.DeepEqual: two values of distinct dynamic types are never
deeply equal; two struct values (or two pointers) are deeply equal iff
their contents are. -/
def reflectDeepEqual : GoValue → GoValue → Bool
  | GoValue.statusVal a, GoValue.statusVal b => a == b
  | GoValue.statusPtr a, GoValue.statusPtr b => a == b
  | _, _ => false

/-- Outcome of r.Get on the FederatedCluster object. -/
inductive GetResult where
  | found (c : FederatedCluster)
  | notFound (e : String)
  | getFailed (e : String)

/-- Outcome of r.Status().Update. -/
inductive UpdateResult where
  | updated
  | conflict (e : String)
  | failed (e : String)
deriving DecidableEq, Repr

/-- ctrl.Result. -/
structure CtrlResult where
  requeue : Bool
deriving DecidableEq, Repr

/-- Everything one Reconcile pass reads from the outside world. -/
structure ReconcileEnv where
  clusterEnv : ClusterEnv
  getCluster : GetResult
  healthz : Except String String
  now : Time
  updateStatus : UpdateResult

/-- What a Reconcile pass returns, plus the statuses it handed to the
store's status Update (the store-write trace). -/
structure ReconcileOutcome where
  result : CtrlResult
  err : Option String
  statusWrites : List FederatedClusterStatus
deriving DecidableEq, Repr

/-- Reconcile (controllers/clusterclient.go lines 223-253): load the
object (NotFound is swallowed by client.IgnoreNotFound), build the
client set (a construction error is returned to the caller), probe
(a probe error is only logged), compare with reflect.DeepEqual — note
the Go code compares the *pointer* clusterStatus against the struct
value federatedCluster.Status — and, if unequal, write the new status;
a conflict yields Requeue with a nil error, any other update failure is
only logged. -/
def Reconcile (env : ReconcileEnv) : ReconcileOutcome :=
  match env.getCluster with
  | GetResult.notFound _ =>
    { result := { requeue := false }, err := none, statusWrites := [] }
  | GetResult.getFailed e =>
    { result := { requeue := false }, err := some e, statusWrites := [] }
  | GetResult.found federatedCluster =>
    let ctor := NewClusterClientSet env.clusterEnv federatedCluster 5
    match ctor.snd with
    | some e =>
      { result := { requeue := false }, err := some e, statusWrites := [] }
    | none =>
      let clusterStatus := (GetClusterHealthStatus ctor.fst env.now env.healthz).fst
      if ¬ reflectDeepEqual (GoValue.statusPtr clusterStatus)
            (GoValue.statusVal federatedCluster.status) then
        match env.updateStatus with
        | UpdateResult.conflict _ =>
          { result := { requeue := true }, err := none, statusWrites := [clusterStatus] }
        | UpdateResult.failed _ =>
          { result := { requeue := false }, err := none, statusWrites := [clusterStatus] }
        | UpdateResult.updated =>
          { result := { requeue := false }, err := none, statusWrites := [clusterStatus] }
      else
        { result := { requeue := false }, err := none, statusWrites := [] }

/-! Concrete inputs used by witnesses and counterexamples. -/

/-- A secret holding a non-empty bearer token. -/
def tokenSecret : Secret := { data := [(TokenKey, "bearer-token")] }

/-- An environment in which every external construction step succeeds. -/
def goodClusterEnv : ClusterEnv :=
  { secretGet := fun _ _ => Except.ok tokenSecret
    buildFromFlags := fun h => Except.ok
      { host := h, caData := [], bearerToken := "", qps := 0, burst := 0, timeout := 0 }
    newForConfig := fun _ => Except.ok () }

/-- A cluster whose persisted status already equals what a successful
probe at time 7 classifies. -/
def fcC1 : FederatedCluster :=
  { name := "alpha", nspace := "fed",
    spec := { apiEndpoint := "https://alpha.example", caBundle := [],
              secretRef := { name := "alpha-secret" } },
    status := { conditions := [newClusterReadyCondition 7] } }

/-- A pass over fcC1: healthy probe at the same timestamp, store update
succeeding. -/
def envC1 : ReconcileEnv :=
  { clusterEnv := goodClusterEnv, getCluster := GetResult.found fcC1,
    healthz := Except.ok "ok", now := 7, updateStatus := UpdateResult.updated }

/-- A cluster whose descriptor has an empty apiEndpoint. -/
def fcC2 : FederatedCluster :=
  { name := "beta", nspace := "fed",
    spec := { apiEndpoint := "", caBundle := [],
              secretRef := { name := "beta-secret" } },
    status := { conditions := [] } }

/-- A pass over fcC2. -/
def envC2 : ReconcileEnv :=
  { clusterEnv := goodClusterEnv, getCluster := GetResult.found fcC2,
    healthz := Except.ok "ok", now := 1, updateStatus := UpdateResult.updated }

/-- The construction error produced for fcC2. -/
def errC2 : String := "The api endpoint of cluster beta is empty"

/-- A fully valid concrete descriptor. -/
def fcC7 : FederatedCluster :=
  { name := "cl7", nspace := "ns7",
    spec := { apiEndpoint := "https://cl7.example", caBundle := [],
              secretRef := { name := "sec7" } },
    status := { conditions := [] } }

/-- The config the base builder returns for fcC7. -/
def cfgC7 : RestConfig :=
  { host := "https://cl7.example", caData := [], bearerToken := "",
    qps := 0, burst := 0, timeout := 0 }

/-- An environment whose lookups all succeed for fcC7. -/
def envC7 : ClusterEnv :=
  { secretGet := fun _ _ => Except.ok tokenSecret
    buildFromFlags := fun _ => Except.ok cfgC7
    newForConfig := fun _ => Except.ok () }

/-- A valid cluster with an as yet empty persisted status. -/
def fcC8 : FederatedCluster :=
  { name := "gamma", nspace := "fed",
    spec := { apiEndpoint := "https://gamma.example", caBundle := [],
              secretRef := { name := "gamma-secret" } },
    status := { conditions := [] } }

/-- A pass over fcC8 whose status write hits a conflict. -/
def envC8 : ReconcileEnv :=
  { clusterEnv := goodClusterEnv, getCluster := GetResult.found fcC8,
    healthz := Except.ok "ok", now := 11,
    updateStatus := UpdateResult.conflict "object modified" }

/-! Theorems about the probe (GetClusterHealthStatus). -/

/-- C3: when no usable client was constructed (nil kubeClient), the
probe returns exactly the single ConfigMalformed=True condition with
reason "ClusterConfigMalformed" and the malformed-config message — but
paired with a nil error, not with the construction error (the claim is
corrected on that point: GetClusterHealthStatus returns nil there and
never sees the construction error). -/
theorem C3_nil_client_yields_config_malformed (c : ClusterClient) (t : Time)
    (hz : Except String String) (h : c.kubeClient = none) :
    GetClusterHealthStatus c t hz
      = ({ conditions := [newClusterConfigMalformedCondition t] }, none) := by
  obtain ⟨k, n⟩ := c
  cases h
  rfl

/-- C3 witness: the theorem applied to a concrete nil-client probe. -/
theorem C3_nil_client_yields_config_malformed_witness :
    GetClusterHealthStatus { kubeClient := none, clusterName := "w3" } 4 (Except.ok "ok")
      = ({ conditions := [newClusterConfigMalformedCondition 4] }, none) :=
  C3_nil_client_yields_config_malformed
    { kubeClient := none, clusterName := "w3" } 4 (Except.ok "ok") rfl

/-- C3 counterexample: the claim as stated says the ConfigMalformed
status is paired with the underlying construction error; on the code the
error component is nil. -/
theorem C3_counterexample :
    (GetClusterHealthStatus { kubeClient := none, clusterName := "x3" } 0
      (Except.ok "ok")).snd = none := rfl

/-- C4: with a usable client, a successful GET whose body is
case-insensitively "ok" yields exactly the single Ready=True condition,
with a nil error. -/
theorem C4_ok_body_yields_ready (c : ClusterClient) (t : Time) (body : String)
    (hc : c.kubeClient ≠ none) (hb : equalFold body "ok" = true) :
    GetClusterHealthStatus c t (Except.ok body)
      = ({ conditions := [newClusterReadyCondition t] }, none) := by
  obtain ⟨k, n⟩ := c
  cases k with
  | none => exact absurd rfl hc
  | some u => simp [GetClusterHealthStatus, hb]

/-- C4 witness: concrete probe with body "OK" (exercising the
case-insensitive comparison). -/
theorem C4_ok_body_yields_ready_witness :
    GetClusterHealthStatus { kubeClient := some (), clusterName := "w4" } 9 (Except.ok "OK")
      = ({ conditions := [newClusterReadyCondition 9] }, none) :=
  C4_ok_body_yields_ready { kubeClient := some (), clusterName := "w4" } 9 "OK"
    (by decide) (by decide)

/-- C5: with a usable client, a successful GET whose body is not
case-insensitively "ok" yields exactly two conditions, Ready=False then
Offline=False, with a nil error. -/
theorem C5_not_ok_body_yields_two_conditions (c : ClusterClient) (t : Time) (body : String)
    (hc : c.kubeClient ≠ none) (hb : equalFold body "ok" = false) :
    GetClusterHealthStatus c t (Except.ok body)
      = ({ conditions := [newClusterNotReadyCondition t,
                          newClusterNotOfflineCondition t] }, none) := by
  obtain ⟨k, n⟩ := c
  cases k with
  | none => exact absurd rfl hc
  | some u => simp [GetClusterHealthStatus, hb]

/-- C5 witness: concrete probe with body "degraded". -/
theorem C5_not_ok_body_yields_two_conditions_witness :
    GetClusterHealthStatus { kubeClient := some (), clusterName := "w5" } 2
        (Except.ok "degraded")
      = ({ conditions := [newClusterNotReadyCondition 2,
                          newClusterNotOfflineCondition 2] }, none) :=
  C5_not_ok_body_yields_two_conditions { kubeClient := some (), clusterName := "w5" } 2
    "degraded" (by decide) (by decide)

/-- C6: with a usable client, a transport failure yields exactly the
single Offline=True condition, and the transport error is returned
alongside the status. -/
theorem C6_transport_failure_yields_offline (c : ClusterClient) (t : Time) (e : String)
    (hc : c.kubeClient ≠ none) :
    GetClusterHealthStatus c t (Except.error e)
      = ({ conditions := [newClusterOfflineCondition t] }, some e) := by
  obtain ⟨k, n⟩ := c
  cases k with
  | none => exact absurd rfl hc
  | some u => rfl

/-- C6 witness: concrete probe with a timeout error. -/
theorem C6_transport_failure_yields_offline_witness :
    GetClusterHealthStatus { kubeClient := some (), clusterName := "w6" } 3
        (Except.error "dial timeout")
      = ({ conditions := [newClusterOfflineCondition 3] }, some "dial timeout") :=
  C6_transport_failure_yields_offline { kubeClient := some (), clusterName := "w6" } 3
    "dial timeout" (by decide)

/-- C9: every condition emitted by one probe pass carries lastProbeTime
equal to the single captured timestamp and lastTransitionTime equal to
that same timestamp. -/
theorem C9_uniform_timestamps (c : ClusterClient) (t : Time)
    (hz : Except String String) (cond : ClusterCondition)
    (h : cond ∈ (GetClusterHealthStatus c t hz).fst.conditions) :
    cond.lastProbeTime = t ∧ cond.lastTransitionTime = some t := by
  obtain ⟨k, n⟩ := c
  cases k with
  | none =>
    simp [GetClusterHealthStatus] at h
    subst h
    exact ⟨rfl, rfl⟩
  | some u =>
    cases hz with
    | error e =>
      simp [GetClusterHealthStatus] at h
      subst h
      exact ⟨rfl, rfl⟩
    | ok body =>
      by_cases hb : equalFold body "ok"
      · simp [GetClusterHealthStatus, hb] at h
        subst h
        exact ⟨rfl, rfl⟩
      · simp [GetClusterHealthStatus, hb] at h
        rcases h with h | h <;> subst h <;> exact ⟨rfl, rfl⟩

/-- C9 witness: the theorem applied to the Ready condition of a concrete
successful probe at time 5. -/
theorem C9_uniform_timestamps_witness :
    (newClusterReadyCondition 5).lastProbeTime = 5 ∧
    (newClusterReadyCondition 5).lastTransitionTime = some 5 :=
  C9_uniform_timestamps { kubeClient := some (), clusterName := "w9" } 5
    (Except.ok "ok") (newClusterReadyCondition 5) (by decide)

/-- C10: on every path the probe returns a status with one or two
conditions, no two conditions share a type, and the returned error is
non-nil exactly when the status is the single Offline=True condition. -/
theorem C10_probe_invariants (c : ClusterClient) (t : Time)
    (hz : Except String String) :
    1 ≤ (GetClusterHealthStatus c t hz).fst.conditions.length ∧
    (GetClusterHealthStatus c t hz).fst.conditions.length ≤ 2 ∧
    List.Nodup ((GetClusterHealthStatus c t hz).fst.conditions.map ClusterCondition.type) ∧
    ((GetClusterHealthStatus c t hz).snd ≠ none ↔
      (GetClusterHealthStatus c t hz).fst.conditions = [newClusterOfflineCondition t]) := by
  have hcm : newClusterConfigMalformedCondition t ≠ newClusterOfflineCondition t := by
    intro hcontra
    have := congrArg ClusterCondition.type hcontra
    simp [newClusterConfigMalformedCondition, newClusterOfflineCondition,
      common.ClusterConfigMalformed, common.ClusterOffline] at this
  have hrd : newClusterReadyCondition t ≠ newClusterOfflineCondition t := by
    intro hcontra
    have := congrArg ClusterCondition.type hcontra
    simp [newClusterReadyCondition, newClusterOfflineCondition,
      common.ClusterReady, common.ClusterOffline] at this
  obtain ⟨k, n⟩ := c
  cases k with
  | none =>
    refine ⟨by simp [GetClusterHealthStatus], by simp [GetClusterHealthStatus],
      by simp [GetClusterHealthStatus], ?_⟩
    simp [GetClusterHealthStatus, hcm]
  | some u =>
    cases hz with
    | error e =>
      exact ⟨by simp [GetClusterHealthStatus], by simp [GetClusterHealthStatus],
        by simp [GetClusterHealthStatus], by simp [GetClusterHealthStatus]⟩
    | ok body =>
      by_cases hb : equalFold body "ok"
      · refine ⟨by simp [GetClusterHealthStatus, hb], by simp [GetClusterHealthStatus, hb],
          by simp [GetClusterHealthStatus, hb], ?_⟩
        simp [GetClusterHealthStatus, hb, hrd]
      · refine ⟨by simp [GetClusterHealthStatus, hb], by simp [GetClusterHealthStatus, hb],
          ?_, by simp [GetClusterHealthStatus, hb]⟩
        simp [GetClusterHealthStatus, hb, newClusterNotReadyCondition,
          newClusterNotOfflineCondition, common.ClusterReady, common.ClusterOffline]

/-! Theorems about client construction (buildClusterConfig). -/

/-- C7: provided the base config builder succeeds on the endpoint (the
scope of validation steps 1-4), buildClusterConfig fails exactly when
the endpoint is empty, the secret name is empty, the secret lookup
errors, or the token entry is absent or empty; otherwise it proceeds and
produces a config. -/
theorem C7_build_config_fails_iff (env : ClusterEnv) (fc : FederatedCluster)
    (cfg : RestConfig)
    (hbf : env.buildFromFlags fc.spec.apiEndpoint = Except.ok cfg) :
    (∃ e, buildClusterConfig env fc = Except.error e) ↔
      fc.spec.apiEndpoint = "" ∨ fc.spec.secretRef.name = "" ∨
      (∃ e, env.secretGet fc.nspace fc.spec.secretRef.name = Except.error e) ∨
      (∃ s, env.secretGet fc.nspace fc.spec.secretRef.name = Except.ok s ∧
        (s.data.lookup TokenKey = none ∨
         ∃ tk, s.data.lookup TokenKey = some tk ∧ tk.length = 0)) := by
  unfold buildClusterConfig
  by_cases h1 : fc.spec.apiEndpoint = ""
  · simp [h1]
  · by_cases h2 : fc.spec.secretRef.name = ""
    · simp [h1, h2]
    · cases hs : env.secretGet fc.nspace fc.spec.secretRef.name with
      | error e => simp [h1, h2, hs]
      | ok s =>
        cases hl : s.data.lookup TokenKey with
        | none =>
          simp only [if_neg h1, if_neg h2, hs, hl]
          constructor
          · intro _
            exact Or.inr (Or.inr (Or.inr ⟨s, rfl, Or.inl hl⟩))
          · intro _
            exact ⟨_, rfl⟩
        | some tk =>
          by_cases h4 : tk.length = 0
          · simp only [if_neg h1, if_neg h2, hs, hl, if_pos h4]
            constructor
            · intro _
              exact Or.inr (Or.inr (Or.inr ⟨s, rfl, Or.inr ⟨tk, hl, h4⟩⟩))
            · intro _
              exact ⟨_, rfl⟩
          · simp only [if_neg h1, if_neg h2, hs, hl, if_neg h4, hbf]
            constructor
            · rintro ⟨e, he⟩
              exact Except.noConfusion he
            · rintro (h | h | ⟨e, he⟩ | ⟨s1, hs1, hinner⟩)
              · exact absurd h h1
              · exact absurd h h2
              · exact Except.noConfusion he
              · injection hs1 with hss
                subst hss
                rcases hinner with hnone | ⟨tk1, htk1, hlen⟩
                · rw [hl] at hnone
                  exact Option.noConfusion hnone
                · rw [hl] at htk1
                  injection htk1 with htk
                  subst htk
                  exact absurd hlen h4

/-- C7 witness: a fully valid concrete descriptor and environment, where
both sides of the equivalence are false. -/
theorem C7_build_config_fails_iff_witness :
    (∃ e, buildClusterConfig envC7 fcC7 = Except.error e) ↔
      fcC7.spec.apiEndpoint = "" ∨ fcC7.spec.secretRef.name = "" ∨
      (∃ e, envC7.secretGet fcC7.nspace fcC7.spec.secretRef.name = Except.error e) ∨
      (∃ s, envC7.secretGet fcC7.nspace fcC7.spec.secretRef.name = Except.ok s ∧
        (s.data.lookup TokenKey = none ∨
         ∃ tk, s.data.lookup TokenKey = some tk ∧ tk.length = 0)) :=
  C7_build_config_fails_iff envC7 fcC7 cfgC7 rfl

/-! Theorems about the reconciliation pass. -/

/-- C1 evaluation at the failing input: the probe classifies the cluster
exactly as the persisted status (structural equality holds), yet the
pass still hands the status to the store's Update — the DeepEqual at
line 242 compares a pointer against a struct value, which in Go is never
deeply equal, so the write is never skipped. -/
theorem C1_equal_status_still_written :
    (GetClusterHealthStatus (NewClusterClientSet goodClusterEnv fcC1 5).fst
        envC1.now envC1.healthz).fst = fcC1.status ∧
    (Reconcile envC1).statusWrites = [fcC1.status] := ⟨rfl, rfl⟩

/-- C2 counterexample: with an empty apiEndpoint, Reconcile does not
continue the pass — it returns the construction error to the caller and
performs no status write, so no ConfigMalformed status is persisted. -/
theorem C2_counterexample :
    (Reconcile envC2).err = some errC2 ∧ (Reconcile envC2).statusWrites = [] :=
  ⟨rfl, rfl⟩

/-- C2 amended: whenever client construction fails, Reconcile aborts the
pass, returning an empty result together with the construction error,
and invokes no status write. -/
theorem C2_construction_error_aborts (env : ReconcileEnv) (fc : FederatedCluster)
    (e : String) (hget : env.getCluster = GetResult.found fc)
    (herr : (NewClusterClientSet env.clusterEnv fc 5).snd = some e) :
    Reconcile env
      = { result := { requeue := false }, err := some e, statusWrites := [] } := by
  unfold Reconcile
  rw [hget]
  simp [herr]

/-- C2 amended witness: the empty-endpoint environment again. -/
theorem C2_construction_error_aborts_witness :
    Reconcile envC2
      = { result := { requeue := false }, err := some errC2, statusWrites := [] } :=
  C2_construction_error_aborts envC2 fcC2 errC2 rfl rfl

/-- C8: once the pass reaches the write (client construction succeeded;
the DeepEqual guard never suppresses the write), a conflict from the
store yields a requeue with a nil error, and any other update failure
yields neither requeue nor error. -/
theorem C8_write_failure_outcomes (env : ReconcileEnv) (fc : FederatedCluster)
    (hget : env.getCluster = GetResult.found fc)
    (hok : (NewClusterClientSet env.clusterEnv fc 5).snd = none) :
    (∀ e, env.updateStatus = UpdateResult.conflict e →
      Reconcile env
        = { result := { requeue := true }, err := none,
            statusWrites := [(GetClusterHealthStatus
              (NewClusterClientSet env.clusterEnv fc 5).fst env.now env.healthz).fst] }) ∧
    (∀ e, env.updateStatus = UpdateResult.failed e →
      Reconcile env
        = { result := { requeue := false }, err := none,
            statusWrites := [(GetClusterHealthStatus
              (NewClusterClientSet env.clusterEnv fc 5).fst env.now env.healthz).fst] }) := by
  constructor <;> intro e hupd <;>
    (unfold Reconcile; rw [hget]; simp [hok, hupd, reflectDeepEqual])

/-- C8 witness: a concrete conflicted write requeues without error. -/
theorem C8_write_failure_outcomes_witness :
    Reconcile envC8
      = { result := { requeue := true }, err := none,
          statusWrites := [(GetClusterHealthStatus
            (NewClusterClientSet envC8.clusterEnv fcC8 5).fst envC8.now envC8.healthz).fst] } :=
  (C8_write_failure_outcomes envC8 fcC8 rfl rfl).1 "object modified" rfl

end KubeFed
